import Mathlib

/-!
Shallow embedding of the video-assembly pipeline of the
YouTube-Story-Creator-Pro repository, covering
`advanced_video_creator.py`, `video_effects.py` and `text_overlays.py`.

Frames are modelled abstractly (a type parameter `α`) wherever the code
treats them opaquely, and as flat lists of natural-number pixel values
where pixel equality matters.  Python floats become rationals; `int(x)`
(truncation toward zero) is `pyint`; image-library primitives that the
claims do not inspect (font rendering, LANCZOS resampling, ...) are
fields of a "prims" structure that the theorems quantify over.
-/

namespace YTSC

/-- Python `int(q)`: truncation of a rational toward zero. -/
def pyint (q : ℚ) : Int :=
  q.num / (q.den : Int)

/-- Clamp an integer into the `uint8` pixel range `[0, 255]`. -/
def clamp255 (i : Int) : ℕ :=
  (max 0 (min 255 i)).toNat

/-- `TransitionConfig` dataclass of `video_effects.py`. -/
structure TransitionConfig where
  type : String
  duration : ℚ := 1
  easing : String := "ease-in-out"
deriving DecidableEq

/-- `EffectConfig` dataclass of `video_effects.py`; the defaults are the
identity configuration. -/
structure EffectConfig where
  blur : ℚ := 0
  brightness : ℚ := 1
  contrast : ℚ := 1
  saturation : ℚ := 1
  vignette : ℚ := 0
  film_grain : ℚ := 0
deriving DecidableEq

/-- `CameraMovement` dataclass of `video_effects.py`. -/
structure CameraMovement where
  type : String
  start_pos : ℚ × ℚ := (1/2, 1/2)
  end_pos : ℚ × ℚ := (1/2, 1/2)
  start_scale : ℚ := 1
  end_scale : ℚ := 1
  duration : ℚ := 3
deriving DecidableEq

/-- `TextStyle` dataclass of `text_overlays.py`, with its defaults. -/
structure TextStyle where
  font_family : String := "Arial"
  font_size : ℕ := 48
  color : ℕ × ℕ × ℕ := (255, 255, 255)
  stroke_color : ℕ × ℕ × ℕ := (0, 0, 0)
  stroke_width : ℕ := 2
  shadow : Bool := true
  shadow_offset : Int × Int := (3, 3)
  shadow_blur : ℕ := 5
  background : Bool := false
  background_color : ℕ × ℕ × ℕ × ℕ := (0, 0, 0, 180)
  background_padding : ℕ := 20
  alignment : String := "center"
  position : String := "bottom"
  custom_position : Option (Int × Int) := none
  animation : String := "none"
deriving DecidableEq

/-- `Caption` dataclass of `text_overlays.py`. -/
structure Caption where
  text : String
  start_time : ℚ
  end_time : ℚ
  style : Option TextStyle := none
  position_override : Option String := none
deriving DecidableEq

/-- Pixel-level primitive image operations used by
`VideoEffects.apply_effects`; the pipeline claims hold for every
implementation of these, so they are kept abstract. -/
structure EffectPrims (α : Type) where
  enhanceBrightness : α → ℚ → α
  enhanceContrast : α → ℚ → α
  enhanceColor : α → ℚ → α
  gaussianBlur : α → ℚ → α
  vignetteFx : α → ℚ → α
  filmGrainFx : α → ℚ → α

/-- `VideoEffects.apply_effects`: each effect is applied only when its
configuration field differs from the identity value. -/
def applyEffects {α : Type} (prims : EffectPrims α) (img : α)
    (config : EffectConfig) : α :=
  let r := img
  let r := if config.brightness ≠ 1 then prims.enhanceBrightness r config.brightness else r
  let r := if config.contrast ≠ 1 then prims.enhanceContrast r config.contrast else r
  let r := if config.saturation ≠ 1 then prims.enhanceColor r config.saturation else r
  let r := if 0 < config.blur then prims.gaussianBlur r config.blur else r
  let r := if 0 < config.vignette then prims.vignetteFx r config.vignette else r
  if 0 < config.film_grain then prims.filmGrainFx r config.film_grain else r

/-- `VideoEffects._apply_easing`. -/
def applyEasing (progress : ℚ) (easing : String) : ℚ :=
  if easing = "linear" then progress
  else if easing = "ease-in" then progress * progress
  else if easing = "ease-out" then 1 - (1 - progress) ^ 2
  else if easing = "ease-in-out" then
    if progress < 1/2 then 2 * progress * progress
    else 1 - 2 * (1 - progress) ^ 2
  else progress

/-- A frame as a flat list of `uint8` pixel values (used where the claims
inspect pixels). -/
abbrev Frame : Type := List ℕ

/-- All pixel values of a frame are within the `uint8` range. -/
def Frame.valid (f : Frame) : Prop :=
  ∀ p ∈ f, p ≤ 255

instance (f : Frame) : Decidable (Frame.valid f) := by
  unfold Frame.valid; infer_instance

/-- One pixel of PIL `Image.blend(im1, im2, alpha)`:
`im1 + alpha*(im2-im1)`, truncated and clamped to `uint8`. -/
def blendPixel (a b : ℕ) (alpha : ℚ) : ℕ :=
  clamp255 (pyint ((a : ℚ) + alpha * ((b : ℚ) - (a : ℚ))))

/-- `VideoEffects._fade_transition`: `Image.blend(img1, img2, progress)`. -/
def fadeTransition (img1 img2 : Frame) (progress : ℚ) : Frame :=
  List.zipWith (fun a b => blendPixel a b progress) img1 img2

/-- One pixel of PIL `Image.composite(image1, image2, mask)`: where the
mask is 255 the pixel of `image1` is taken, where it is 0 that of
`image2`, with linear mixing in between. -/
def compositePixel (p1 p2 : ℕ) (m : ℕ) : ℕ :=
  clamp255 (pyint ((p2 : ℚ) + (m : ℚ) / 255 * ((p1 : ℚ) - (p2 : ℚ))))

/-- `VideoEffects._dissolve_transition`: a binary noise mask
(`noise < progress`, with `noise i` the random sample for pixel `i`,
drawn from `[0,1)`) selects between `img2` and `img1` via
`Image.composite(img2, img1, mask)`. -/
def dissolveTransition (noise : ℕ → ℚ) (img1 img2 : Frame)
    (progress : ℚ) : Frame :=
  (img1.zip img2).mapIdx fun i p =>
    compositePixel p.2 p.1 (if noise i < progress then 255 else 0)

/-- `VideoEffects.apply_transition`: easing is applied to the progress,
then the transition variant is dispatched on `transition.type`; the
slide/zoom/wipe/spin variants involve resampling and are abstracted as
the primitive `other`; an unknown type falls back to fade. -/
def applyTransitionPix (other : String → Frame → Frame → ℚ → Frame)
    (noise : ℕ → ℚ) (img1 img2 : Frame) (transition : TransitionConfig)
    (progress : ℚ) : Frame :=
  let p := applyEasing progress transition.easing
  if transition.type = "fade" then fadeTransition img1 img2 p
  else if transition.type = "slide" then other "slide" img1 img2 p
  else if transition.type = "zoom" then other "zoom" img1 img2 p
  else if transition.type = "wipe" then other "wipe" img1 img2 p
  else if transition.type = "dissolve" then dissolveTransition noise img1 img2 p
  else if transition.type = "spin" then other "spin" img1 img2 p
  else fadeTransition img1 img2 p

/-- `VideoEffects._ken_burns_effect`, lines 291-324: the crop rectangle
`(left, top, right, bottom)` computed (over rationals) for an image of
size `width × height` at a given progress, after the clamping step
("Ensure bounds"). -/
def kenBurnsCrop (movement : CameraMovement) (width height : ℚ)
    (progress : ℚ) : ℚ × ℚ × ℚ × ℚ :=
  let currentX := movement.start_pos.1 + (movement.end_pos.1 - movement.start_pos.1) * progress
  let currentY := movement.start_pos.2 + (movement.end_pos.2 - movement.start_pos.2) * progress
  let currentScale := movement.start_scale + (movement.end_scale - movement.start_scale) * progress
  let cropWidth := width / currentScale
  let cropHeight := height / currentScale
  let left := currentX * width - cropWidth / 2
  let top := currentY * height - cropHeight / 2
  let left := max 0 (min left (width - cropWidth))
  let top := max 0 (min top (height - cropHeight))
  let right := min width (left + cropWidth)
  let bottom := min height (top + cropHeight)
  (left, top, right, bottom)

/-- `TextOverlaySystem._calculate_position`: horizontal alignment, then
vertical position; an explicit `custom_position` overrides both.
Python `//` is floored division, hence `Int.fdiv`. -/
def calculatePosition (imgSize : Int × Int) (textSize : Int × Int)
    (style : TextStyle) : Int × Int :=
  let width := imgSize.1
  let height := imgSize.2
  let textWidth := textSize.1
  let textHeight := textSize.2
  let x : Int :=
    if style.alignment = "left" then 50
    else if style.alignment = "right" then width - textWidth - 50
    else (width - textWidth).fdiv 2
  match style.custom_position with
  | some p => p
  | none =>
    let y : Int :=
      if style.position = "top" then 50
      else if style.position = "middle" then (height - textHeight).fdiv 2
      else height - textHeight - 50
    (x, y)

/-- `TextOverlaySystem._apply_animation`: returns the animated
`(x, y, alpha)`.  `rsin t` abstracts `math.sin(t * math.pi)`, so the
bounce term `abs(math.sin(progress * math.pi * 2)) * 20` becomes
`|rsin (2 * progress)| * 20`. -/
def applyAnimation (rsin : ℚ → ℚ) (x y : Int) (animation : String)
    (progress : ℚ) (imgSize : Int × Int) : Int × Int × ℚ :=
  let height := imgSize.2
  if animation = "fade" then (x, y, progress)
  else if animation = "slide" then
    (x, pyint ((y : ℚ) + ((height : ℚ) - (y : ℚ)) * (1 - progress)), 1)
  else if animation = "typewriter" then (x, y, min 1 (progress * 2))
  else if animation = "bounce" then
    (x, pyint ((y : ℚ) - |rsin (2 * progress)| * 20), 1)
  else (x, y, 1)

/-- The image-library primitives behind `add_text_overlay`: measuring
the text bounding box, reading the image size, and the drawing pipeline
(background rectangle, shadow, stroke, text at alpha, alpha-composite),
which after the animation step depends only on the computed position and
alpha. -/
structure TextRenderPrims (α : Type) where
  imgSize : α → Int × Int
  textSize : String → TextStyle → Int × Int
  draw : α → String → TextStyle → Int → Int → ℚ → α

/-- `TextOverlaySystem.add_text_overlay`: measure the text, compute its
position, animate position and alpha from `progress`, then draw. -/
def addTextOverlay {α : Type} (prims : TextRenderPrims α) (rsin : ℚ → ℚ)
    (image : α) (text : String) (style : TextStyle) (progress : ℚ) : α :=
  let ts := prims.textSize text style
  let xy := calculatePosition (prims.imgSize image) ts style
  let xya := applyAnimation rsin xy.1 xy.2 style.animation progress (prims.imgSize image)
  prims.draw image text style xya.1 xya.2.1 xya.2.2

/-- The fade-in progress `apply_captions` hands to the renderer for a
caption at playhead time `t`:
`min(1.0, ((t - start) / (end - start)) * 2)`. -/
def captionProgress (c : Caption) (t : ℚ) : ℚ :=
  min 1 ((t - c.start_time) / (c.end_time - c.start_time) * 2)

/-- `TextOverlaySystem.apply_captions`: for each frame `i` the playhead
is `i / fps`; every caption whose `[start_time, end_time]` interval
contains the playhead is rendered onto the frame (in caption-list
order) through `overlayText`, which abstracts
`add_text_overlay(frame, caption.text, style, progress)`. -/
def applyCaptions {α : Type} (overlayText : α → String → TextStyle → ℚ → α)
    (frames : List α) (captions : List Caption) (fps : ℕ) : List α :=
  frames.mapIdx fun i frame =>
    captions.foldl (fun acc c =>
      let t : ℚ := (i : ℚ) / (fps : ℚ)
      if c.start_time ≤ t ∧ t ≤ c.end_time then
        overlayText acc c.text (c.style.getD {}) (captionProgress c t)
      else acc) frame

/-- The story dictionary fields read by the video creator
(`story.get(key, "")`; an absent key reads as the empty string). -/
structure Story where
  title : String := ""
  hook : String := ""
  problem : String := ""
  solution : String := ""
  impact : String := ""
  call_to_action : String := ""

/-- `VideoTemplate` dataclass of `video_templates.py` (the fields the
frame pipeline reads; `text_styles` is the dict as an association
list). -/
structure VideoTemplate where
  name : String := ""
  description : String := ""
  transitions : List TransitionConfig := []
  effects : EffectConfig := {}
  camera_movements : List CameraMovement := []
  text_styles : List (String × TextStyle) := []
  music_genre : String := "ambient"

/-- The image-level primitives the scene pipeline of
`AdvancedVideoCreator` delegates to; the frame-count claims hold for
every implementation, so they stay abstract. -/
structure VideoPrims (α : Type) where
  effectPrims : EffectPrims α
  applyCameraMovement : α → CameraMovement → ℚ → α
  applyTransition : α → α → TransitionConfig → ℚ → α
  overlayText : α → String → TextStyle → ℚ → α
  createEndScreen : α → String → String → α

/-- `AdvancedVideoCreator._generate_scene_frames`: one frame per index
with camera movement (progress `frame_idx / num_frames`) when the
template has camera movements, else `num_frames` copies of the image. -/
def generateSceneFrames {α : Type} (prims : VideoPrims α)
    (template : VideoTemplate) (image : α) (numFrames : ℕ) : List α :=
  match template.camera_movements with
  | movement :: _ =>
    (List.range numFrames).map fun (frameIdx : ℕ) =>
      prims.applyCameraMovement image movement ((frameIdx : ℚ) / (numFrames : ℚ))
  | [] => List.replicate numFrames image

/-- `AdvancedVideoCreator._add_title_sequence`: overlays the title onto
the first `title_frames = int(min(3.0, len(frames)/fps) * fps)` frames,
with progress `(i+1)/title_frames`; `overlay` abstracts
`add_text_overlay(frame, title, title_style, progress)`. -/
def addTitleSequence {α : Type} (overlay : α → ℚ → α) (frames : List α)
    (fps : ℕ) : List α :=
  if frames.length = 0 then frames
  else
    let titleDuration : ℚ := min 3 ((frames.length : ℚ) / (fps : ℚ))
    let titleFrames : ℕ := (pyint (titleDuration * (fps : ℚ))).toNat
    if titleFrames = 0 then frames
    else
      frames.mapIdx fun i f =>
        if i < min titleFrames frames.length then
          overlay f (((i : ℚ) + 1) / (titleFrames : ℚ))
        else f

/-- `AdvancedVideoCreator._add_end_screen`: replaces the last
`end_frames = int(min(3.0, len(frames)/fps) * fps)` frames by end-screen
frames; `endScreen` abstracts `create_end_screen`. -/
def addEndScreen {α : Type} (endScreen : α → α) (frames : List α)
    (fps : ℕ) : List α :=
  if frames.length = 0 then frames
  else
    let endDuration : ℚ := min 3 ((frames.length : ℚ) / (fps : ℚ))
    let endFrames : ℕ := (pyint (endDuration * (fps : ℚ))).toNat
    if endFrames = 0 ∨ frames.length < endFrames then frames
    else
      let startIdx := frames.length - endFrames
      frames.mapIdx fun i f => if startIdx ≤ i then endScreen f else f

/-- `AdvancedVideoCreator._create_transition`: one transition frame per
index `i < min(len(frames1), len(frames2))`, with progress
`i / num_frames`. -/
def createTransition {α : Type} (applyT : α → α → ℚ → α)
    (frames1 frames2 : List α) : List α :=
  let numFrames := min frames1.length frames2.length
  (frames1.zip frames2).mapIdx fun i p =>
    applyT p.1 p.2 ((i : ℚ) / (numFrames : ℚ))

/-- The transition-overlap window width of `_process_scenes`, line 152:
`max(1, frames_per_scene // 4)`. -/
def transitionOverlap (framesPerScene : ℕ) : ℕ :=
  max 1 (framesPerScene / 4)

/-- The transition block of `_process_scenes` (lines 149-164) for one
scene: when a transition applies and the overlap window fits in both
the accumulated frames and the new scene's frames, the tail of the
accumulated frames and the head of the scene's frames are replaced by
transition output; otherwise the scene is concatenated directly. -/
def spliceTransition {α : Type} (applyT : α → α → TransitionConfig → ℚ → α)
    (transitions : List TransitionConfig) (sceneIdx framesPerScene : ℕ)
    (processed sceneFrames : List α) : List α :=
  if 0 < sceneIdx ∧ 0 < transitions.length ∧ 4 < framesPerScene then
    let transition := transitions.getD (sceneIdx % transitions.length) { type := "fade" }
    let k := transitionOverlap framesPerScene
    if k ≤ processed.length ∧ k ≤ sceneFrames.length then
      let transitionFrames := createTransition (fun a b p => applyT a b transition p)
        (processed.drop (processed.length - k)) (sceneFrames.take k)
      processed.take (processed.length - k) ++ transitionFrames ++ sceneFrames.drop k
    else processed ++ sceneFrames
  else processed ++ sceneFrames

/-- The `title` text style of the template
(`template.text_styles.get("title", TextStyle())`). -/
def lookupStyle (template : VideoTemplate) (key : String) : TextStyle :=
  (template.text_styles.lookup key).getD {}

/-- One iteration of the scene loop of `_process_scenes`
(lines 126-164): apply base effects, generate the scene's frames, add
the title sequence (first scene) or end screen (last scene), then splice
the transition and append. -/
def sceneStep {α : Type} (prims : VideoPrims α) (template : VideoTemplate)
    (story : Story) (numImages framesPerScene fps : ℕ) (acc : List α)
    (sceneIdx : ℕ) (image : α) : List α :=
  let image := applyEffects prims.effectPrims image template.effects
  let sceneFrames := generateSceneFrames prims template image framesPerScene
  let sceneFrames :=
    if sceneIdx = 0 then
      addTitleSequence
        (fun f p => prims.overlayText f story.title (lookupStyle template "title") p)
        sceneFrames fps
    else if sceneIdx = numImages - 1 then
      addEndScreen
        (fun f => prims.createEndScreen f "Thank You for Watching" story.call_to_action)
        sceneFrames fps
    else sceneFrames
  spliceTransition prims.applyTransition template.transitions sceneIdx
    framesPerScene acc sceneFrames

/-- The scene loop of `_process_scenes`, folding `sceneStep` over the
(adjusted) image list with its scene index. -/
def sceneLoop {α : Type} (prims : VideoPrims α) (template : VideoTemplate)
    (story : Story) (numImages framesPerScene fps : ℕ) :
    ℕ → List α → List α → List α
  | _, acc, [] => acc
  | sceneIdx, acc, image :: rest =>
    sceneLoop prims template story numImages framesPerScene fps (sceneIdx + 1)
      (sceneStep prims template story numImages framesPerScene fps acc sceneIdx image)
      rest

/-- The `(seconds_per_image, ideal_image_count)` pair chosen by
`_process_scenes` (lines 104-112) from the requested duration. -/
def idealParams (duration : ℕ) : ℕ × ℕ :=
  if duration ≤ 30 then (10, 3)
  else if duration ≤ 45 then (15, 3)
  else (15, max 3 (duration / 15))

/-- The image-list adjustment of `_process_scenes` (lines 115-121):
pad by repeating the last image up to the ideal count, or keep only the
first `ideal` images. -/
def adjustImages {α : Type} (images : List α) (ideal : ℕ) : List α :=
  match images.getLast? with
  | none => images
  | some last =>
    if images.length < ideal then
      images ++ List.replicate (ideal - images.length) last
    else images.take ideal

/-- The caption style built in `_generate_captions`. -/
def generatedCaptionStyle : TextStyle :=
  { font_size := 32, position := "bottom", background := true,
    background_color := (0, 0, 0, 180) }

/-- `AdvancedVideoCreator._generate_captions`: the five story segments,
each (when non-empty) captioned over its fifth of the duration. -/
def generateCaptions (story : Story) (duration : ℚ) : List Caption :=
  let segments := [story.hook, story.problem, story.solution, story.impact,
    story.call_to_action]
  let segmentDuration := duration / 5
  (segments.mapIdx fun i s => ((i : ℚ), s)).filterMap fun p =>
    if p.2 ≠ "" then
      some { text := p.2, start_time := p.1 * segmentDuration,
             end_time := (p.1 + 1) * segmentDuration,
             style := some generatedCaptionStyle }
    else none

/-- The watermark style built in `_add_watermark`. -/
def watermarkStyle : TextStyle :=
  { font_size := 20, color := (255, 255, 255), position := "custom",
    custom_position := some (50, 50), background := false, shadow := true }

/-- The final length reconciliation of `_process_scenes`
(lines 179-185): truncate to `total` frames, or pad by repeating the
last frame; `none` models the `IndexError` Python raises when padding is
needed but there is no last frame. -/
def reconcileLength {α : Type} (total : ℕ) (frames : List α) : Option (List α) :=
  if total < frames.length then some (frames.take total)
  else if frames.length < total then
    match frames.getLast? with
    | some last => some (frames ++ List.replicate (total - frames.length) last)
    | none => none
  else some frames

/-- The body of `_process_scenes` between the empty-input guard and the
final length reconciliation: adjust the image list to the ideal count,
run the scene loop, then apply captions and watermark on request. -/
def scenePipeline {α : Type} (prims : VideoPrims α) (images : List α)
    (story : Story) (template : VideoTemplate) (duration fps : ℕ)
    (addCaptions addWatermark : Bool) (watermarkText : String) : List α :=
  let params := idealParams duration
  let images := adjustImages images params.2
  let framesPerScene := params.1 * fps
  let processed := sceneLoop prims template story images.length framesPerScene fps 0 [] images
  let processed :=
    if addCaptions then
      applyCaptions prims.overlayText processed
        (generateCaptions story (duration : ℚ)) fps
    else processed
  if addWatermark ∧ watermarkText ≠ "" then
    processed.map fun f => prims.overlayText f watermarkText watermarkStyle (1/2)
  else processed

/-- `AdvancedVideoCreator._process_scenes`: empty input short-circuits
to an empty frame list; otherwise the scene pipeline runs and the
length is reconciled to `duration * fps`. -/
def processScenes {α : Type} (prims : VideoPrims α) (images : List α)
    (story : Story) (template : VideoTemplate) (duration fps : ℕ)
    (addCaptions addWatermark : Bool) (watermarkText : String) :
    Option (List α) :=
  if images.length = 0 then some []
  else
    reconcileLength (duration * fps)
      (scenePipeline prims images story template duration fps
        addCaptions addWatermark watermarkText)

/-- `AdvancedVideoCreator.create_professional_video`, restricted to its
frame pipeline: `none` models the `st.error("No frames were
generated...")` path that returns no video (or an exception propagating
out of `_process_scenes`); the audio mixing and encoding steps do not
change the frame sequence. -/
def createProfessionalVideo {α : Type} (prims : VideoPrims α)
    (images : List α) (story : Story) (template : VideoTemplate)
    (duration fps : ℕ) (addCaptions addWatermark : Bool)
    (watermarkText : String) : Option (List α) :=
  match processScenes prims images story template duration fps
      addCaptions addWatermark watermarkText with
  | none => none
  | some frames => if frames.length = 0 then none else some frames

/-! ### Helper lemmas -/

theorem pyint_natCast (n : ℕ) : pyint (n : ℚ) = (n : Int) := by
  simp [pyint]

theorem clamp255_natCast (n : ℕ) (h : n ≤ 255) : clamp255 (n : Int) = n := by
  unfold clamp255
  omega

theorem blendPixel_zero (a b : ℕ) (h : a ≤ 255) : blendPixel a b 0 = a := by
  unfold blendPixel
  have e : (a : ℚ) + 0 * ((b : ℚ) - (a : ℚ)) = (a : ℚ) := by ring
  rw [e, pyint_natCast, clamp255_natCast a h]

theorem blendPixel_one (a b : ℕ) (h : b ≤ 255) : blendPixel a b 1 = b := by
  unfold blendPixel
  have e : (a : ℚ) + 1 * ((b : ℚ) - (a : ℚ)) = (b : ℚ) := by ring
  rw [e, pyint_natCast, clamp255_natCast b h]

theorem compositePixel_zero (p1 p2 : ℕ) (h : p2 ≤ 255) :
    compositePixel p1 p2 0 = p2 := by
  unfold compositePixel
  have e : (p2 : ℚ) + (0 : ℕ) / 255 * ((p1 : ℚ) - (p2 : ℚ)) = (p2 : ℚ) := by
    push_cast
    ring
  rw [e, pyint_natCast, clamp255_natCast p2 h]

theorem compositePixel_full (p1 p2 : ℕ) (h : p1 ≤ 255) :
    compositePixel p1 p2 255 = p1 := by
  unfold compositePixel
  have e : (p2 : ℚ) + (255 : ℕ) / 255 * ((p1 : ℚ) - (p2 : ℚ)) = (p1 : ℚ) := by
    push_cast
    ring
  rw [e, pyint_natCast, clamp255_natCast p1 h]

theorem applyEasing_zero (easing : String) : applyEasing 0 easing = 0 := by
  unfold applyEasing
  split_ifs <;> norm_num at *

theorem applyEasing_one (easing : String) : applyEasing 1 easing = 1 := by
  unfold applyEasing
  split_ifs <;> norm_num at *

theorem fadeTransition_zero (img1 img2 : Frame) (hlen : img1.length = img2.length)
    (hv : img1.valid) : fadeTransition img1 img2 0 = img1 := by
  unfold fadeTransition
  induction img1 generalizing img2 with
  | nil => simp
  | cons a t ih =>
    match img2 with
    | [] => simp at hlen
    | b :: t2 =>
      simp only [List.zipWith_cons_cons]
      have hv' : Frame.valid t := fun p hp => hv p (List.mem_cons_of_mem a hp)
      rw [blendPixel_zero a b (hv a (List.mem_cons_self a _)), ih t2 (by simpa using hlen) hv']

theorem fadeTransition_one (img1 img2 : Frame) (hlen : img1.length = img2.length)
    (hv : img2.valid) : fadeTransition img1 img2 1 = img2 := by
  unfold fadeTransition
  induction img1 generalizing img2 with
  | nil =>
    match img2 with
    | [] => simp
    | b :: t2 => simp at hlen
  | cons a t ih =>
    match img2 with
    | [] => simp at hlen
    | b :: t2 =>
      simp only [List.zipWith_cons_cons]
      have hv' : Frame.valid t2 := fun p hp => hv p (List.mem_cons_of_mem b hp)
      rw [blendPixel_one a b (hv b (List.mem_cons_self b _)), ih t2 (by simpa using hlen) hv']

theorem dissolveTransition_zero (noise : ℕ → ℚ) (img1 img2 : Frame)
    (hlen : img1.length = img2.length) (hv : img1.valid)
    (hnoise : ∀ i, 0 ≤ noise i) : dissolveTransition noise img1 img2 0 = img1 := by
  unfold dissolveTransition
  induction img1 generalizing img2 noise with
  | nil => simp
  | cons a t ih =>
    match img2 with
    | [] => simp at hlen
    | b :: t2 =>
      simp only [List.zip_cons_cons, List.mapIdx_cons]
      have hmask : ¬ noise 0 < 0 := not_lt.mpr (hnoise 0)
      rw [if_neg hmask]
      have hv' : Frame.valid t := fun p hp => hv p (List.mem_cons_of_mem a hp)
      rw [compositePixel_zero b a (hv a (List.mem_cons_self a _))]
      have := ih (fun i => noise (i + 1)) t2 (by simpa using hlen) hv'
        (fun i => hnoise (i + 1))
      rw [this]

theorem dissolveTransition_one (noise : ℕ → ℚ) (img1 img2 : Frame)
    (hlen : img1.length = img2.length) (hv : img2.valid)
    (hnoise : ∀ i, noise i < 1) : dissolveTransition noise img1 img2 1 = img2 := by
  unfold dissolveTransition
  induction img1 generalizing img2 noise with
  | nil =>
    match img2 with
    | [] => simp
    | b :: t2 => simp at hlen
  | cons a t ih =>
    match img2 with
    | [] => simp at hlen
    | b :: t2 =>
      simp only [List.zip_cons_cons, List.mapIdx_cons]
      rw [if_pos (hnoise 0)]
      have hv' : Frame.valid t2 := fun p hp => hv p (List.mem_cons_of_mem b hp)
      rw [compositePixel_full b a (hv b (List.mem_cons_self b _))]
      have := ih (fun i => noise (i + 1)) t2 (by simpa using hlen) hv'
        (fun i => hnoise (i + 1))
      rw [this]

/-! ### Claim theorems -/

/-- C8: `apply_effects` with the identity `EffectConfig`
(brightness = contrast = saturation = 1, blur = vignette = film_grain
= 0) returns the input frame unchanged for every frame and every
implementation of the underlying image primitives: each field at its
identity value is skipped as a no-op. -/
theorem C8_applyEffects_identity {α : Type} (prims : EffectPrims α) (frame : α) :
    applyEffects prims frame
      { blur := 0, brightness := 1, contrast := 1, saturation := 1,
        vignette := 0, film_grain := 0 } = frame := by
  simp [applyEffects]

/-- C10: `add_text_overlay` with the default `TextStyle`
(whose `animation` is `"none"`) produces identical output for any two
progress values: the animation step returns the unmodified position with
alpha 1 regardless of progress, and nothing else reads the progress. -/
theorem C10_addTextOverlay_progress_independent {α : Type}
    (prims : TextRenderPrims α) (rsin : ℚ → ℚ) (image : α) (text : String)
    (p1 p2 : ℚ) :
    addTextOverlay prims rsin image text {} p1 =
      addTextOverlay prims rsin image text {} p2 := rfl

/-- C6: for every caption with `start_time < end_time`, the fade-in
progress `apply_captions` passes to the renderer at playhead `t` equals
`min 1 (2*(t－start)/(end－start))`; it is 0 at `t = start` and 1 at the
interval midpoint `t = start + (end－start)/2`. -/
theorem C6_captionProgress_fade (c : Caption) (t : ℚ)
    (h : c.start_time < c.end_time) :
    captionProgress c t =
      min 1 (2 * (t - c.start_time) / (c.end_time - c.start_time)) ∧
    captionProgress c c.start_time = 0 ∧
    captionProgress c (c.start_time + (c.end_time - c.start_time) / 2) = 1 := by
  have hd : c.end_time - c.start_time ≠ 0 := sub_ne_zero.mpr (ne_of_gt h)
  refine ⟨?_, ?_, ?_⟩
  · unfold captionProgress
    rw [div_mul_eq_mul_div, mul_comm]
  · unfold captionProgress
    rw [sub_self, zero_div, zero_mul]
    exact min_eq_right zero_le_one
  · unfold captionProgress
    have e : c.start_time + (c.end_time - c.start_time) / 2 - c.start_time =
        (c.end_time - c.start_time) / 2 := by ring
    rw [e]
    have e2 : (c.end_time - c.start_time) / 2 / (c.end_time - c.start_time) * 2 = 1 := by
      field_simp
      ring
    rw [e2, min_self]

/-- C6 witness: the caption over `[0, 2]` evaluated at playhead 1. -/
theorem C6_captionProgress_fade_witness :
    captionProgress { text := "w", start_time := 0, end_time := 2 } 1 =
      min 1 (2 * ((1 : ℚ) - 0) / (2 - 0)) ∧
    captionProgress { text := "w", start_time := 0, end_time := 2 } 0 = 0 ∧
    captionProgress { text := "w", start_time := 0, end_time := 2 }
      (0 + ((2 : ℚ) - 0) / 2) = 1 :=
  C6_captionProgress_fade { text := "w", start_time := 0, end_time := 2 } 1
    (by norm_num)

theorem clampCropBounds (w cw l0 : ℚ) (hw : 0 ≤ w) (hcw0 : 0 ≤ cw)
    (hcwle : cw ≤ w) :
    0 ≤ max 0 (min l0 (w - cw)) ∧
    max 0 (min l0 (w - cw)) ≤ min w (max 0 (min l0 (w - cw)) + cw) ∧
    min w (max 0 (min l0 (w - cw)) + cw) ≤ w := by
  refine ⟨le_max_left 0 _, le_min ?_ ?_, min_le_left w _⟩
  · exact max_le hw (le_trans (min_le_right _ _) (by linarith))
  · exact le_add_of_nonneg_right hcw0

/-- C7: for every Ken-Burns movement with both scales at least 1 and
focus coordinates in `[0,1]`, and every progress in `[0,1]`, the crop
rectangle `(left, top, right, bottom)` computed by `_ken_burns_effect`
is contained in the source bitmap:
`0 ≤ left ≤ right ≤ width` and `0 ≤ top ≤ bottom ≤ height`. -/
theorem C7_kenBurnsCrop_within_bounds (m : CameraMovement)
    (width height progress : ℚ) (hw : 0 ≤ width) (hh : 0 ≤ height)
    (hfx0 : 0 ≤ m.start_pos.1) (hfx1 : m.start_pos.1 ≤ 1)
    (hfy0 : 0 ≤ m.start_pos.2) (hfy1 : m.start_pos.2 ≤ 1)
    (hgx0 : 0 ≤ m.end_pos.1) (hgx1 : m.end_pos.1 ≤ 1)
    (hgy0 : 0 ≤ m.end_pos.2) (hgy1 : m.end_pos.2 ≤ 1)
    (hs : 1 ≤ m.start_scale) (he : 1 ≤ m.end_scale)
    (hp0 : 0 ≤ progress) (hp1 : progress ≤ 1) :
    0 ≤ (kenBurnsCrop m width height progress).1 ∧
    (kenBurnsCrop m width height progress).1 ≤
      (kenBurnsCrop m width height progress).2.2.1 ∧
    (kenBurnsCrop m width height progress).2.2.1 ≤ width ∧
    0 ≤ (kenBurnsCrop m width height progress).2.1 ∧
    (kenBurnsCrop m width height progress).2.1 ≤
      (kenBurnsCrop m width height progress).2.2.2 ∧
    (kenBurnsCrop m width height progress).2.2.2 ≤ height := by
  have hscale : 1 ≤ m.start_scale + (m.end_scale - m.start_scale) * progress := by
    nlinarith [mul_nonneg (sub_nonneg.mpr hs) (sub_nonneg.mpr hp1),
      mul_nonneg (sub_nonneg.mpr he) hp0]
  have hW := clampCropBounds width
    (width / (m.start_scale + (m.end_scale - m.start_scale) * progress))
    ((m.start_pos.1 + (m.end_pos.1 - m.start_pos.1) * progress) * width -
      width / (m.start_scale + (m.end_scale - m.start_scale) * progress) / 2)
    hw (div_nonneg hw (le_trans zero_le_one hscale)) (div_le_self hw hscale)
  have hH := clampCropBounds height
    (height / (m.start_scale + (m.end_scale - m.start_scale) * progress))
    ((m.start_pos.2 + (m.end_pos.2 - m.start_pos.2) * progress) * height -
      height / (m.start_scale + (m.end_scale - m.start_scale) * progress) / 2)
    hh (div_nonneg hh (le_trans zero_le_one hscale)) (div_le_self hh hscale)
  dsimp only [kenBurnsCrop]
  exact ⟨hW.1, hW.2.1, hW.2.2, hH.1, hH.2.1, hH.2.2⟩

/-- C7 witness: a concrete Ken-Burns movement (zoom from 1 to 3/2 while
panning from `(1/2, 1/2)` to `(1/3, 2/3)`) on a 100×50 bitmap at
progress 1/2. -/
theorem C7_kenBurnsCrop_within_bounds_witness :
    0 ≤ (kenBurnsCrop ⟨"ken_burns", (1/2, 1/2), (1/3, 2/3), 1, 3/2, 3⟩
      100 50 (1/2)).1 ∧
    (kenBurnsCrop ⟨"ken_burns", (1/2, 1/2), (1/3, 2/3), 1, 3/2, 3⟩
      100 50 (1/2)).1 ≤
      (kenBurnsCrop ⟨"ken_burns", (1/2, 1/2), (1/3, 2/3), 1, 3/2, 3⟩
        100 50 (1/2)).2.2.1 ∧
    (kenBurnsCrop ⟨"ken_burns", (1/2, 1/2), (1/3, 2/3), 1, 3/2, 3⟩
      100 50 (1/2)).2.2.1 ≤ 100 ∧
    0 ≤ (kenBurnsCrop ⟨"ken_burns", (1/2, 1/2), (1/3, 2/3), 1, 3/2, 3⟩
      100 50 (1/2)).2.1 ∧
    (kenBurnsCrop ⟨"ken_burns", (1/2, 1/2), (1/3, 2/3), 1, 3/2, 3⟩
      100 50 (1/2)).2.1 ≤
      (kenBurnsCrop ⟨"ken_burns", (1/2, 1/2), (1/3, 2/3), 1, 3/2, 3⟩
        100 50 (1/2)).2.2.2 ∧
    (kenBurnsCrop ⟨"ken_burns", (1/2, 1/2), (1/3, 2/3), 1, 3/2, 3⟩
      100 50 (1/2)).2.2.2 ≤ 50 :=
  C7_kenBurnsCrop_within_bounds ⟨"ken_burns", (1/2, 1/2), (1/3, 2/3), 1, 3/2, 3⟩
    100 50 (1/2) (by norm_num) (by norm_num) (by norm_num) (by norm_num)
    (by norm_num) (by norm_num) (by norm_num) (by norm_num) (by norm_num)
    (by norm_num) (by norm_num) (by norm_num) (by norm_num) (by norm_num)

theorem applyTransitionPix_fade (other : String → Frame → Frame → ℚ → Frame)
    (noise : ℕ → ℚ) (img1 img2 : Frame) (dur : ℚ) (easing : String) (p : ℚ) :
    applyTransitionPix other noise img1 img2 ⟨"fade", dur, easing⟩ p =
      fadeTransition img1 img2 (applyEasing p easing) := by
  dsimp only [applyTransitionPix]
  rw [if_pos rfl]

theorem applyTransitionPix_dissolve (other : String → Frame → Frame → ℚ → Frame)
    (noise : ℕ → ℚ) (img1 img2 : Frame) (dur : ℚ) (easing : String) (p : ℚ) :
    applyTransitionPix other noise img1 img2 ⟨"dissolve", dur, easing⟩ p =
      dissolveTransition noise img1 img2 (applyEasing p easing) := by
  dsimp only [applyTransitionPix]
  rw [if_neg (by decide), if_neg (by decide), if_neg (by decide),
    if_neg (by decide), if_pos rfl]

/-- C4: for the fade and dissolve transition variants, under every
easing selector, `apply_transition` at progress 0 reproduces `img1`
pixel-exactly and at progress 1 reproduces `img2` pixel-exactly, for all
same-size `uint8` frames (the dissolve noise samples lie in `[0,1)`). -/
theorem C4_fade_dissolve_boundary (other : String → Frame → Frame → ℚ → Frame)
    (noise : ℕ → ℚ) (img1 img2 : Frame) (ttype easing : String) (dur : ℚ)
    (hty : ttype = "fade" ∨ ttype = "dissolve")
    (hlen : img1.length = img2.length)
    (hv1 : img1.valid) (hv2 : img2.valid)
    (hnoise : ∀ i, 0 ≤ noise i ∧ noise i < 1) :
    applyTransitionPix other noise img1 img2 ⟨ttype, dur, easing⟩ 0 = img1 ∧
    applyTransitionPix other noise img1 img2 ⟨ttype, dur, easing⟩ 1 = img2 := by
  rcases hty with h | h <;> subst h
  · rw [applyTransitionPix_fade, applyTransitionPix_fade, applyEasing_zero,
      applyEasing_one]
    exact ⟨fadeTransition_zero img1 img2 hlen hv1,
      fadeTransition_one img1 img2 hlen hv2⟩
  · rw [applyTransitionPix_dissolve, applyTransitionPix_dissolve,
      applyEasing_zero, applyEasing_one]
    exact ⟨dissolveTransition_zero noise img1 img2 hlen hv1 (fun i => (hnoise i).1),
      dissolveTransition_one noise img1 img2 hlen hv2 (fun i => (hnoise i).2)⟩

/-- C4 witness: fade between the concrete frames `[0, 200]` and
`[255, 3]` with ease-in-out easing and constant noise 1/2. -/
theorem C4_fade_dissolve_boundary_witness :
    applyTransitionPix (fun _ a _ _ => a) (fun _ => 1/2) [0, 200] [255, 3]
      ⟨"fade", 1, "ease-in-out"⟩ 0 = [0, 200] ∧
    applyTransitionPix (fun _ a _ _ => a) (fun _ => 1/2) [0, 200] [255, 3]
      ⟨"fade", 1, "ease-in-out"⟩ 1 = [255, 3] :=
  C4_fade_dissolve_boundary (fun _ a _ _ => a) (fun _ => 1/2) [0, 200] [255, 3]
    "fade" "ease-in-out" 1 (Or.inl rfl) rfl (by decide) (by decide)
    (fun _ => by norm_num)

theorem foldl_filter_decide {β γ : Type} (P : γ → Prop) [DecidablePred P]
    (f : β → γ → β) (l : List γ) (init : β) :
    l.foldl (fun acc c => if P c then f acc c else acc) init =
      (l.filter fun c => decide (P c)).foldl f init := by
  induction l generalizing init with
  | nil => rfl
  | cons c t ih =>
    by_cases h : P c <;> simp [List.filter_cons, h, List.foldl_cons, ih]

/-- C5 counterexample: with two frames at 1 fps and the caption
`[start_time 0, end_time 1]`, the code renders the caption on frame 1,
whose playhead time equals `end_time` — contradicting the claim that
rendering happens only on the half-open interval `[start, end)`.
The overlay primitive logs each rendered caption text. -/
theorem C5_caption_rendered_at_end_time :
    applyCaptions (fun acc s _ _ => acc ++ [s]) [([] : List String), []]
      [{ text := "c", start_time := 0, end_time := 1 }] 1 = [["c"], ["c"]] ∧
    (["c"] : List String) ≠ [] := by
  constructor
  · unfold applyCaptions
    simp only [List.mapIdx_cons, List.mapIdx_nil, List.foldl_cons, List.foldl_nil]
    norm_num
  · decide

/-- C5 amended: in `apply_captions`, caption `c` is rendered onto frame
`i` exactly when the playhead time `i/fps` lies in the closed interval
`[c.start_time, c.end_time]` — in particular it is still rendered when
the playhead equals `c.end_time`: frame `i` is the fold of the renderer
over precisely the captions whose closed interval contains the
playhead. -/
theorem C5_captions_rendered_iff_closed_interval {α : Type}
    (overlay : α → String → TextStyle → ℚ → α) (frames : List α)
    (captions : List Caption) (fps : ℕ) (i : ℕ) (dflt : α)
    (hi : i < frames.length) :
    (applyCaptions overlay frames captions fps).getD i dflt =
      (captions.filter fun c =>
          decide (c.start_time ≤ (i : ℚ) / (fps : ℚ) ∧
            (i : ℚ) / (fps : ℚ) ≤ c.end_time)).foldl
        (fun acc c =>
          overlay acc c.text (c.style.getD {})
            (captionProgress c ((i : ℚ) / (fps : ℚ))))
        (frames.getD i dflt) := by
  unfold applyCaptions
  rw [List.getD_eq_getElem?_getD, List.getElem?_mapIdx,
    List.getElem?_eq_getElem hi]
  simp only [Option.map_some, Option.getD_some, List.getD_eq_getElem?_getD,
    List.getElem?_eq_getElem hi]
  exact foldl_filter_decide _ _ captions _

/-- C5 amended witness: the concrete instance of the counterexample,
read through the amended characterization at frame 1. -/
theorem C5_captions_rendered_iff_closed_interval_witness :
    (applyCaptions (fun (acc : List String) s _ _ => acc ++ [s]) [[], []]
        [{ text := "c", start_time := 0, end_time := 1 }] 1).getD 1 [] =
      (([{ text := "c", start_time := 0, end_time := 1 }] : List Caption).filter
          fun c => decide (c.start_time ≤ (1 : ℚ) / (1 : ℚ) ∧
            (1 : ℚ) / (1 : ℚ) ≤ c.end_time)).foldl
        (fun acc c => acc ++ [c.text])
        (([[], []] : List (List String)).getD 1 []) :=
  C5_captions_rendered_iff_closed_interval
    (fun acc s _ _ => acc ++ [s]) [[], []]
    [{ text := "c", start_time := 0, end_time := 1 }] 1 1 [] (by decide)

theorem length_createTransition {α : Type} (applyT : α → α → ℚ → α)
    (frames1 frames2 : List α) :
    (createTransition applyT frames1 frames2).length =
      min frames1.length frames2.length := by
  unfold createTransition
  simp

theorem length_spliceTransition {α : Type}
    (applyT : α → α → TransitionConfig → ℚ → α)
    (transitions : List TransitionConfig) (sceneIdx framesPerScene : ℕ)
    (processed sceneFrames : List α) :
    (spliceTransition applyT transitions sceneIdx framesPerScene
        processed sceneFrames).length =
      if (0 < sceneIdx ∧ 0 < transitions.length ∧ 4 < framesPerScene) ∧
          transitionOverlap framesPerScene ≤ processed.length ∧
          transitionOverlap framesPerScene ≤ sceneFrames.length then
        processed.length + sceneFrames.length - transitionOverlap framesPerScene
      else processed.length + sceneFrames.length := by
  unfold spliceTransition
  dsimp only
  by_cases hA : 0 < sceneIdx ∧ 0 < transitions.length ∧ 4 < framesPerScene
  · rw [if_pos hA]
    by_cases hB : transitionOverlap framesPerScene ≤ processed.length ∧
        transitionOverlap framesPerScene ≤ sceneFrames.length
    · rw [if_pos hB, if_pos ⟨hA, hB⟩]
      simp only [List.length_append, List.length_take, List.length_drop,
        length_createTransition]
      omega
    · rw [if_neg hB, if_neg (fun hc => hB hc.2), List.length_append]
  · rw [if_neg hA, if_neg (fun hc => hA hc.1), List.length_append]

/-- C2 amended: splicing a transition at a scene boundary shortens the
sequence by exactly the overlap width `k`: the accumulated frame count
after the splice is `len(processed) + len(scene) - k` (the `2k`
overlapping frames are replaced by `k` transition frames), not the
`len(processed) + len(scene)` of plain concatenation. -/
theorem C2_splice_length {α : Type} (applyT : α → α → TransitionConfig → ℚ → α)
    (transitions : List TransitionConfig) (sceneIdx framesPerScene : ℕ)
    (processed sceneFrames : List α)
    (hidx : 0 < sceneIdx) (htr : 0 < transitions.length)
    (hfps : 4 < framesPerScene)
    (hfit1 : transitionOverlap framesPerScene ≤ processed.length)
    (hfit2 : transitionOverlap framesPerScene ≤ sceneFrames.length) :
    (spliceTransition applyT transitions sceneIdx framesPerScene
        processed sceneFrames).length =
      processed.length + sceneFrames.length - transitionOverlap framesPerScene := by
  unfold spliceTransition
  rw [if_pos ⟨hidx, htr, hfps⟩, if_pos ⟨hfit1, hfit2⟩]
  simp only [List.length_append, List.length_take, List.length_drop,
    length_createTransition]
  omega

/-- C2 witness: the amended length identity at the concrete boundary of
the counterexample. -/
theorem C2_splice_length_witness :
    (spliceTransition (fun (a : ℕ) _ _ _ => a + 10) [{ type := "fade" }] 1 8
        [0, 1, 2, 3] [4, 5, 6, 7]).length =
      ([0, 1, 2, 3] : List ℕ).length + ([4, 5, 6, 7] : List ℕ).length -
        transitionOverlap 8 :=
  C2_splice_length (fun a _ _ _ => a + 10) [{ type := "fade" }] 1 8
    [0, 1, 2, 3] [4, 5, 6, 7] (by decide) (by decide) (by decide)
    (by decide) (by decide)

/-- C3 counterexample: at `frames_per_scene = 8` the code's overlap
window width is `max(1, 8//4) = 2`, not the `min(1, 8//4) = 1` the
claim states. -/
theorem C3_overlap_is_max_not_min :
    transitionOverlap 8 = 2 ∧ ¬ (transitionOverlap 8 = min 1 (8 / 4)) := by
  constructor
  · decide
  · decide

/-- C3 amended: at every scene boundary `i > 0` (with a non-empty
transition list and `frames_per_scene > 4`) the overlap window width is
`max(1, frames_per_scene // 4)` — which under the guard equals
`frames_per_scene // 4` — the splice happens only when that window fits
within both neighboring scenes' available frames (and then replaces the
window by exactly `k` transition frames), and otherwise the scenes are
concatenated directly without error. -/
theorem C3_splice_window {α : Type} (applyT : α → α → TransitionConfig → ℚ → α)
    (transitions : List TransitionConfig) (sceneIdx framesPerScene : ℕ)
    (processed sceneFrames : List α)
    (hidx : 0 < sceneIdx) (htr : 0 < transitions.length)
    (hfps : 4 < framesPerScene) :
    transitionOverlap framesPerScene = framesPerScene / 4 ∧
    (¬ (transitionOverlap framesPerScene ≤ processed.length ∧
        transitionOverlap framesPerScene ≤ sceneFrames.length) →
      spliceTransition applyT transitions sceneIdx framesPerScene
        processed sceneFrames = processed ++ sceneFrames) ∧
    ((transitionOverlap framesPerScene ≤ processed.length ∧
        transitionOverlap framesPerScene ≤ sceneFrames.length) →
      ∃ mid,
        spliceTransition applyT transitions sceneIdx framesPerScene
            processed sceneFrames =
          processed.take (processed.length - transitionOverlap framesPerScene) ++
            mid ++ sceneFrames.drop (transitionOverlap framesPerScene) ∧
        mid.length = transitionOverlap framesPerScene) := by
  refine ⟨?_, ?_, ?_⟩
  · unfold transitionOverlap
    omega
  · intro hnofit
    unfold spliceTransition
    rw [if_pos ⟨hidx, htr, hfps⟩, if_neg hnofit]
  · intro hfit
    refine ⟨createTransition
      (fun a b p => applyT a b
        (transitions.getD (sceneIdx % transitions.length) { type := "fade" }) p)
      (processed.drop (processed.length - transitionOverlap framesPerScene))
      (sceneFrames.take (transitionOverlap framesPerScene)), ?_, ?_⟩
    · unfold spliceTransition
      rw [if_pos ⟨hidx, htr, hfps⟩, if_pos hfit]
    · rw [length_createTransition]
      simp only [List.length_drop, List.length_take]
      omega

/-- C3 witness: the amended window property at the concrete boundary
(`frames_per_scene = 8`, two 4-frame neighbours). -/
theorem C3_splice_window_witness :
    transitionOverlap 8 = 8 / 4 ∧
    (¬ (transitionOverlap 8 ≤ ([0, 1, 2, 3] : List ℕ).length ∧
        transitionOverlap 8 ≤ ([4, 5, 6, 7] : List ℕ).length) →
      spliceTransition (fun (a : ℕ) _ _ _ => a) [{ type := "fade" }] 1 8
        [0, 1, 2, 3] [4, 5, 6, 7] = [0, 1, 2, 3] ++ [4, 5, 6, 7]) ∧
    ((transitionOverlap 8 ≤ ([0, 1, 2, 3] : List ℕ).length ∧
        transitionOverlap 8 ≤ ([4, 5, 6, 7] : List ℕ).length) →
      ∃ mid,
        spliceTransition (fun (a : ℕ) _ _ _ => a) [{ type := "fade" }] 1 8
            [0, 1, 2, 3] [4, 5, 6, 7] =
          ([0, 1, 2, 3] : List ℕ).take (([0, 1, 2, 3] : List ℕ).length -
            transitionOverlap 8) ++ mid ++
            ([4, 5, 6, 7] : List ℕ).drop (transitionOverlap 8) ∧
        mid.length = transitionOverlap 8) :=
  C3_splice_window (fun a _ _ _ => a) [{ type := "fade" }] 1 8
    [0, 1, 2, 3] [4, 5, 6, 7] (by decide) (by decide) (by decide)

/-! ### Frame-count lemmas for the scene pipeline -/

theorem length_generateSceneFrames {α : Type} (prims : VideoPrims α)
    (template : VideoTemplate) (image : α) (numFrames : ℕ) :
    (generateSceneFrames prims template image numFrames).length = numFrames := by
  unfold generateSceneFrames
  cases template.camera_movements with
  | nil => exact List.length_replicate numFrames image
  | cons m rest => rw [List.length_map, List.length_range]

theorem length_addTitleSequence {α : Type} (overlay : α → ℚ → α)
    (frames : List α) (fps : ℕ) :
    (addTitleSequence overlay frames fps).length = frames.length := by
  unfold addTitleSequence
  dsimp only
  split_ifs <;> simp

theorem length_addEndScreen {α : Type} (endScreen : α → α)
    (frames : List α) (fps : ℕ) :
    (addEndScreen endScreen frames fps).length = frames.length := by
  unfold addEndScreen
  dsimp only
  split_ifs <;> simp

theorem length_spliceTransition_ge {α : Type}
    (applyT : α → α → TransitionConfig → ℚ → α)
    (transitions : List TransitionConfig) (sceneIdx framesPerScene : ℕ)
    (processed sceneFrames : List α) :
    processed.length ≤ (spliceTransition applyT transitions sceneIdx
      framesPerScene processed sceneFrames).length := by
  unfold spliceTransition
  dsimp only
  split_ifs with h1 h2
  · simp only [List.length_append, List.length_take, List.length_drop,
      length_createTransition]
    omega
  · simp only [List.length_append]
    omega
  · simp only [List.length_append]
    omega

theorem spliceTransition_nil {α : Type}
    (applyT : α → α → TransitionConfig → ℚ → α)
    (transitions : List TransitionConfig) (sceneIdx framesPerScene : ℕ)
    (sceneFrames : List α) :
    spliceTransition applyT transitions sceneIdx framesPerScene []
      sceneFrames = sceneFrames := by
  unfold spliceTransition
  dsimp only
  split_ifs with h1 h2
  · exfalso
    have h := h2.1
    simp only [List.length_nil] at h
    unfold transitionOverlap at h
    omega
  · simp
  · simp

theorem length_sceneStep_ge {α : Type} (prims : VideoPrims α)
    (template : VideoTemplate) (story : Story)
    (numImages framesPerScene fps : ℕ) (acc : List α) (sceneIdx : ℕ)
    (image : α) :
    acc.length ≤ (sceneStep prims template story numImages framesPerScene
      fps acc sceneIdx image).length := by
  unfold sceneStep
  exact length_spliceTransition_ge _ _ _ _ _ _

theorem length_spliceTransition_of_scene_length {α : Type}
    (applyT : α → α → TransitionConfig → ℚ → α)
    (transitions : List TransitionConfig) (sceneIdx framesPerScene : ℕ)
    (processed sceneFrames : List α)
    (hS : sceneFrames.length = framesPerScene) :
    (spliceTransition applyT transitions sceneIdx framesPerScene
        processed sceneFrames).length =
      if (0 < sceneIdx ∧ 0 < transitions.length ∧ 4 < framesPerScene) ∧
          transitionOverlap framesPerScene ≤ processed.length ∧
          transitionOverlap framesPerScene ≤ framesPerScene then
        processed.length + framesPerScene - transitionOverlap framesPerScene
      else processed.length + framesPerScene := by
  rw [length_spliceTransition, hS]

theorem length_sceneStep {α : Type} (prims : VideoPrims α)
    (template : VideoTemplate) (story : Story)
    (numImages framesPerScene fps : ℕ) (acc : List α) (sceneIdx : ℕ)
    (image : α) :
    (sceneStep prims template story numImages framesPerScene fps acc
        sceneIdx image).length =
      if (0 < sceneIdx ∧ 0 < template.transitions.length ∧
            4 < framesPerScene) ∧
          transitionOverlap framesPerScene ≤ acc.length ∧
          transitionOverlap framesPerScene ≤ framesPerScene then
        acc.length + framesPerScene - transitionOverlap framesPerScene
      else acc.length + framesPerScene := by
  unfold sceneStep
  dsimp only
  apply length_spliceTransition_of_scene_length
  split_ifs <;>
    simp [length_addTitleSequence, length_addEndScreen, length_generateSceneFrames]

theorem length_sceneStep_nil {α : Type} (prims : VideoPrims α)
    (template : VideoTemplate) (story : Story)
    (numImages framesPerScene fps : ℕ) (sceneIdx : ℕ) (image : α) :
    (sceneStep prims template story numImages framesPerScene fps []
      sceneIdx image).length = framesPerScene := by
  unfold sceneStep
  rw [spliceTransition_nil]
  split_ifs <;>
    simp [length_addTitleSequence, length_addEndScreen, length_generateSceneFrames]

theorem length_sceneLoop_ge {α : Type} (prims : VideoPrims α)
    (template : VideoTemplate) (story : Story)
    (numImages framesPerScene fps : ℕ) (images : List α) (sceneIdx : ℕ)
    (acc : List α) :
    acc.length ≤ (sceneLoop prims template story numImages framesPerScene
      fps sceneIdx acc images).length := by
  induction images generalizing sceneIdx acc with
  | nil => simp [sceneLoop]
  | cons image rest ih =>
    calc acc.length
        ≤ (sceneStep prims template story numImages framesPerScene fps acc
            sceneIdx image).length :=
          length_sceneStep_ge prims template story numImages framesPerScene
            fps acc sceneIdx image
      _ ≤ _ := ih _ _

theorem length_sceneLoop_cons_ge {α : Type} (prims : VideoPrims α)
    (template : VideoTemplate) (story : Story)
    (numImages framesPerScene fps : ℕ) (image : α) (rest : List α)
    (sceneIdx : ℕ) :
    framesPerScene ≤ (sceneLoop prims template story numImages
      framesPerScene fps sceneIdx [] (image :: rest)).length := by
  show framesPerScene ≤ (sceneLoop prims template story numImages
    framesPerScene fps (sceneIdx + 1)
    (sceneStep prims template story numImages framesPerScene fps []
      sceneIdx image) rest).length
  calc framesPerScene
      = (sceneStep prims template story numImages framesPerScene fps []
          sceneIdx image).length :=
        (length_sceneStep_nil prims template story numImages framesPerScene
          fps sceneIdx image).symm
    _ ≤ _ := length_sceneLoop_ge prims template story numImages
        framesPerScene fps rest _ _

theorem length_applyCaptions {α : Type}
    (overlayText : α → String → TextStyle → ℚ → α) (frames : List α)
    (captions : List Caption) (fps : ℕ) :
    (applyCaptions overlayText frames captions fps).length = frames.length := by
  unfold applyCaptions
  simp

theorem idealParams_spi_ge (duration : ℕ) : 10 ≤ (idealParams duration).1 := by
  unfold idealParams
  split_ifs <;> norm_num

theorem idealParams_count_ge (duration : ℕ) : 3 ≤ (idealParams duration).2 := by
  unfold idealParams
  split_ifs <;> simp [le_max_left]

theorem adjustImages_ne_nil {α : Type} (images : List α) (ideal : ℕ)
    (hne : images ≠ []) (hideal : 0 < ideal) :
    adjustImages images ideal ≠ [] := by
  unfold adjustImages
  cases hgl : images.getLast? with
  | none => exact absurd (List.getLast?_eq_none_iff.mp hgl) hne
  | some last =>
    split_ifs with h
    · exact fun hcon => hne (List.append_eq_nil.mp hcon).1
    · apply List.ne_nil_of_length_pos
      simp only [List.length_take]
      have := List.length_pos.mpr hne
      omega

theorem reconcileLength_of_ne_nil {α : Type} (total : ℕ) (frames : List α)
    (hne : frames ≠ []) :
    ∃ out, reconcileLength total frames = some out ∧ out.length = total := by
  unfold reconcileLength
  split_ifs with h1 h2
  · exact ⟨_, rfl, by simp only [List.length_take]; omega⟩
  · obtain ⟨last, hlast⟩ := Option.isSome_iff_exists.mp
      (List.getLast?_isSome.mpr hne)
    rw [hlast]
    exact ⟨_, rfl, by simp only [List.length_append, List.length_replicate]; omega⟩
  · exact ⟨frames, rfl, by omega⟩

theorem length_scenePipeline_ge {α : Type} (prims : VideoPrims α)
    (images : List α) (story : Story) (template : VideoTemplate)
    (duration fps : ℕ) (addCaptions addWatermark : Bool)
    (watermarkText : String) (hne : images ≠ []) :
    (idealParams duration).1 * fps ≤
      (scenePipeline prims images story template duration fps addCaptions
        addWatermark watermarkText).length := by
  unfold scenePipeline
  dsimp only
  have hadj : adjustImages images (idealParams duration).2 ≠ [] :=
    adjustImages_ne_nil images _ hne
      (lt_of_lt_of_le (by norm_num) (idealParams_count_ge duration))
  obtain ⟨image, rest, hcons⟩ := List.exists_cons_of_ne_nil hadj
  rw [hcons]
  have hloop := length_sceneLoop_cons_ge prims template story
    (image :: rest).length ((idealParams duration).1 * fps) fps image rest 0
  split_ifs
  all_goals try simp only [List.length_map, length_applyCaptions]
  all_goals exact hloop

/-- C2 counterexample: at a boundary exactly as produced by a
duration-30, fps-1 run (`frames_per_scene = 10 = seconds_per_image *
fps`, so the window width is `max(1, 10//4) = 2`), splicing between a
10-frame accumulated sequence and a 10-frame scene yields 18 frames,
not the 20 of plain concatenation; and running the whole scene pipeline
on three images with a fade-transition template yields 26 frames where
plain concatenation of the three 10-frame scenes would give 3 * 10. -/
theorem C2_splice_shrinks_sequence :
    (spliceTransition (fun (a : ℕ) _ _ _ => a) [{ type := "fade" }] 1 10
        [0, 1, 2, 3, 4, 5, 6, 7, 8, 9]
        [10, 11, 12, 13, 14, 15, 16, 17, 18, 19]).length = 18 ∧
    ¬ ((spliceTransition (fun (a : ℕ) _ _ _ => a) [{ type := "fade" }] 1 10
        [0, 1, 2, 3, 4, 5, 6, 7, 8, 9]
        [10, 11, 12, 13, 14, 15, 16, 17, 18, 19]).length =
      ([0, 1, 2, 3, 4, 5, 6, 7, 8, 9] : List ℕ).length +
        ([10, 11, 12, 13, 14, 15, 16, 17, 18, 19] : List ℕ).length) ∧
    (scenePipeline
      { effectPrims := ⟨fun a _ => a, fun a _ => a, fun a _ => a,
          fun a _ => a, fun a _ => a, fun a _ => a⟩,
        applyCameraMovement := fun a _ _ => a,
        applyTransition := fun a _ _ _ => a,
        overlayText := fun a _ _ _ => a,
        createEndScreen := fun a _ _ => a }
      [(0 : ℕ), 0, 0] {} { transitions := [{ type := "fade" }] } 30 1
      false false "").length = 26 ∧
    (26 : ℕ) ≠ 3 * 10 := by
  refine ⟨by decide, by decide, ?_, by decide⟩
  have hpipe : scenePipeline
      { effectPrims := ⟨fun a _ => a, fun a _ => a, fun a _ => a,
          fun a _ => a, fun a _ => a, fun a _ => a⟩,
        applyCameraMovement := fun a _ _ => a,
        applyTransition := fun a _ _ _ => a,
        overlayText := fun a _ _ _ => a,
        createEndScreen := fun a _ _ => a }
      [(0 : ℕ), 0, 0] {} { transitions := [{ type := "fade" }] } 30 1
      false false "" =
      sceneStep
        { effectPrims := ⟨fun a _ => a, fun a _ => a, fun a _ => a,
            fun a _ => a, fun a _ => a, fun a _ => a⟩,
          applyCameraMovement := fun a _ _ => a,
          applyTransition := fun a _ _ _ => a,
          overlayText := fun a _ _ _ => a,
          createEndScreen := fun a _ _ => a }
        { transitions := [{ type := "fade" }] } {} 3 10 1
        (sceneStep
          { effectPrims := ⟨fun a _ => a, fun a _ => a, fun a _ => a,
              fun a _ => a, fun a _ => a, fun a _ => a⟩,
            applyCameraMovement := fun a _ _ => a,
            applyTransition := fun a _ _ _ => a,
            overlayText := fun a _ _ _ => a,
            createEndScreen := fun a _ _ => a }
          { transitions := [{ type := "fade" }] } {} 3 10 1
          (sceneStep
            { effectPrims := ⟨fun a _ => a, fun a _ => a, fun a _ => a,
                fun a _ => a, fun a _ => a, fun a _ => a⟩,
              applyCameraMovement := fun a _ _ => a,
              applyTransition := fun a _ _ _ => a,
              overlayText := fun a _ _ _ => a,
              createEndScreen := fun a _ _ => a }
            { transitions := [{ type := "fade" }] } {} 3 10 1 [] 0 0)
          1 0)
        2 0 := rfl
  rw [hpipe]
  simp only [length_sceneStep]
  decide

theorem processScenes_some_of_ne_nil {α : Type} (prims : VideoPrims α)
    (images : List α) (story : Story) (template : VideoTemplate)
    (duration fps : ℕ) (addCaptions addWatermark : Bool)
    (watermarkText : String) (hne : images ≠ []) (hf : 0 < fps) :
    ∃ out,
      processScenes prims images story template duration fps addCaptions
        addWatermark watermarkText = some out ∧
      out.length = duration * fps := by
  unfold processScenes
  rw [if_neg (by simpa using hne)]
  apply reconcileLength_of_ne_nil
  apply List.ne_nil_of_length_pos
  have h10 : 10 ≤ (idealParams duration).1 := idealParams_spi_ge duration
  have := length_scenePipeline_ge prims images story template duration fps
    addCaptions addWatermark watermarkText hne
  have : 0 < (idealParams duration).1 * fps := Nat.mul_pos (by omega) hf
  omega

/-- C1: for every non-empty image list and positive duration and fps,
`_process_scenes` returns a frame sequence of length exactly
`duration * fps`, whatever the number of supplied images: excess frames
are truncated and deficits are padded by repeating the last frame
(`reconcileLength`). -/
theorem C1_processScenes_length {α : Type} (prims : VideoPrims α)
    (images : List α) (story : Story) (template : VideoTemplate)
    (duration fps : ℕ) (addCaptions addWatermark : Bool)
    (watermarkText : String) (hne : images ≠ []) (hd : 0 < duration)
    (hf : 0 < fps) :
    ∃ out,
      processScenes prims images story template duration fps addCaptions
        addWatermark watermarkText = some out ∧
      out.length = duration * fps :=
  processScenes_some_of_ne_nil prims images story template duration fps
    addCaptions addWatermark watermarkText hne hf

/-- C1 witness: the guarantee at one concrete image, duration 30 and
fps 1 with trivial image primitives. -/
theorem C1_processScenes_length_witness :
    ∃ out,
      processScenes
        { effectPrims := ⟨fun a _ => a, fun a _ => a, fun a _ => a,
            fun a _ => a, fun a _ => a, fun a _ => a⟩,
          applyCameraMovement := fun a _ _ => a,
          applyTransition := fun a _ _ _ => a,
          overlayText := fun a _ _ _ => a,
          createEndScreen := fun a _ _ => a }
        [(7 : ℕ)] {} {} 30 1 false false "" = some out ∧
      out.length = 30 * 1 :=
  C1_processScenes_length _ [(7 : ℕ)] {} {} 30 1 false false ""
    (by simp) (by norm_num) (by norm_num)

theorem reconcileLength_zero {α : Type} (frames : List α) :
    reconcileLength 0 frames = some [] := by
  unfold reconcileLength
  split_ifs with h1 h2
  · simp
  · omega
  · have hl : frames.length = 0 := by omega
    rw [List.length_eq_zero] at hl
    rw [hl]

/-- C9 counterexample: with the non-empty image list `[5]` but
`duration = 0` (and `fps = 1`), the pipeline truncates everything and
`create_professional_video` still takes the "no frames generated"
failure path — the claim's "for every non-empty image list no such
failure occurs" is false without a positivity assumption on
`duration * fps`. -/
theorem C9_nonempty_images_can_still_fail :
    createProfessionalVideo
      { effectPrims := ⟨fun a _ => a, fun a _ => a, fun a _ => a,
          fun a _ => a, fun a _ => a, fun a _ => a⟩,
        applyCameraMovement := fun a _ _ => a,
        applyTransition := fun a _ _ _ => a,
        overlayText := fun a _ _ _ => a,
        createEndScreen := fun a _ _ => a }
      [(5 : ℕ)] {} {} 0 1 false false "" = none ∧
    ([(5 : ℕ)] : List ℕ) ≠ [] := by
  constructor
  · have h : processScenes
        { effectPrims := ⟨fun a _ => a, fun a _ => a, fun a _ => a,
            fun a _ => a, fun a _ => a, fun a _ => a⟩,
          applyCameraMovement := fun a _ _ => a,
          applyTransition := fun a _ _ _ => a,
          overlayText := fun a _ _ _ => a,
          createEndScreen := fun a _ _ => a }
        [(5 : ℕ)] {} {} 0 1 false false "" = some [] := by
      unfold processScenes
      rw [if_neg (by decide)]
      exact reconcileLength_zero _
    unfold createProfessionalVideo
    rw [h]
    rfl
  · decide

/-- C9 amended: provided duration and fps are positive, the pipeline
fails if and only if the input image list is empty: an empty list makes
`_process_scenes` return the empty sequence and
`create_professional_video` return no video, while every non-empty list
yields a video with a non-empty frame sequence and no failure. -/
theorem C9_failure_iff_empty_images {α : Type} (prims : VideoPrims α)
    (images : List α) (story : Story) (template : VideoTemplate)
    (duration fps : ℕ) (addCaptions addWatermark : Bool)
    (watermarkText : String) (hd : 0 < duration) (hf : 0 < fps) :
    (images = [] →
      processScenes prims images story template duration fps addCaptions
        addWatermark watermarkText = some [] ∧
      createProfessionalVideo prims images story template duration fps
        addCaptions addWatermark watermarkText = none) ∧
    (images ≠ [] →
      ∃ out,
        createProfessionalVideo prims images story template duration fps
          addCaptions addWatermark watermarkText = some out ∧
        out ≠ []) := by
  constructor
  · intro hnil
    subst hnil
    have h : processScenes prims [] story template duration fps addCaptions
        addWatermark watermarkText = some [] := by
      unfold processScenes
      simp
    refine ⟨h, ?_⟩
    unfold createProfessionalVideo
    rw [h]
    rfl
  · intro hne
    obtain ⟨out, hout, hlen⟩ := processScenes_some_of_ne_nil prims images
      story template duration fps addCaptions addWatermark watermarkText hne hf
    refine ⟨out, ?_, ?_⟩
    · unfold createProfessionalVideo
      rw [hout]
      dsimp only
      have : out.length ≠ 0 := by
        rw [hlen]
        exact Nat.ne_of_gt (Nat.mul_pos hd hf)
      rw [if_neg this]
    · apply List.ne_nil_of_length_pos
      rw [hlen]
      exact Nat.mul_pos hd hf

/-- C9 amended witness: the dichotomy at the concrete one-image list
with duration 30 and fps 1 and trivial image primitives. -/
theorem C9_failure_iff_empty_images_witness :
    (([(5 : ℕ)] : List ℕ) = [] →
      processScenes
        { effectPrims := ⟨fun a _ => a, fun a _ => a, fun a _ => a,
            fun a _ => a, fun a _ => a, fun a _ => a⟩,
          applyCameraMovement := fun a _ _ => a,
          applyTransition := fun a _ _ _ => a,
          overlayText := fun a _ _ _ => a,
          createEndScreen := fun a _ _ => a }
        [(5 : ℕ)] {} {} 30 1 false false "" = some [] ∧
      createProfessionalVideo
        { effectPrims := ⟨fun a _ => a, fun a _ => a, fun a _ => a,
            fun a _ => a, fun a _ => a, fun a _ => a⟩,
          applyCameraMovement := fun a _ _ => a,
          applyTransition := fun a _ _ _ => a,
          overlayText := fun a _ _ _ => a,
          createEndScreen := fun a _ _ => a }
        [(5 : ℕ)] {} {} 30 1 false false "" = none) ∧
    (([(5 : ℕ)] : List ℕ) ≠ [] →
      ∃ out,
        createProfessionalVideo
          { effectPrims := ⟨fun a _ => a, fun a _ => a, fun a _ => a,
              fun a _ => a, fun a _ => a, fun a _ => a⟩,
            applyCameraMovement := fun a _ _ => a,
            applyTransition := fun a _ _ _ => a,
            overlayText := fun a _ _ _ => a,
            createEndScreen := fun a _ _ => a }
          [(5 : ℕ)] {} {} 30 1 false false "" = some out ∧
        out ≠ []) :=
  C9_failure_iff_empty_images _ [(5 : ℕ)] {} {} 30 1 false false ""
    (by norm_num) (by norm_num)

end YTSC
